import Mathlib

/-!
Verification development for the CrystalValue LTV pipeline orchestrator
(src/crystalvalue.py).  The orchestrator is a Python dataclass holding
configuration fields; its methods sequence calls to collaborator modules
(feature_engineering, automl, model_evaluation, synthetic_data).  The
collaborators are external to the file under verification, so they are
embedded as oracle functions returning `Except PyErr` values; collaborator
code whose behaviour a claim depends on, and which is not part of the file,
is modelled from the specification (marked `Modelled from the spec:`).

Python conventions mapped into the embedding:
  - `Optional[str]` fields and arguments become `Option String`; Python
    falsiness of such a value (None or empty string) is `strTruthy`.
  - the feature-type mapping (a Python dict) becomes an association list;
    falsiness is emptiness.
  - raising an exception becomes an `Except.error` result; the mutated
    object survives the exception, so every method outcome carries the
    post-call state alongside the result.
  - observable collaborator interactions are recorded as a list of effects.
-/

namespace CrystalValueSpec

/-- Python truthiness for an optional string: `None` and the empty string
are falsy, every other string is truthy. -/
def strTruthy : Option String → Bool
  | none => false
  | some s => !s.isEmpty

/-- A feature-type mapping: category name to list of column names
(embedding of the Python dict used for `features_types`). -/
abbrev FeatureTypes := List (String × List String)

/-- Python truthiness of the optional `features_types` dict: `None` and the
empty dict are falsy. -/
def ftTruthy : Option FeatureTypes → Bool
  | none => false
  | some m => !m.isEmpty

/-- Python truthiness of the optional `ignore_columns` collection: `None`
and the empty collection are falsy. -/
def colsTruthy : Option (List String) → Bool
  | none => false
  | some l => !l.isEmpty

/-- Errors a method call can surface: Python exceptions raised by the code
under verification, and arbitrary errors raised by collaborator calls. -/
inductive PyErr where
  | valueError (msg : String)
  | unboundLocalError (var : String)
  | indexError
  | external (msg : String)
  deriving DecidableEq, Repr

/-- Tabular data returned from the warehouse (abstract rows). -/
abbrev DataFrame := List (List String)

/-- An AutoML dataset handle returned by the managed-ML service. -/
structure AutomlDataset where
  name : String
  deriving DecidableEq, Repr

/-- A model deployed to an endpoint, as reported inside a model resource. -/
structure DeployedModel where
  endpoint : String
  deriving DecidableEq, Repr

/-- The `gca_resource` payload of a Vertex AI model. -/
structure GcaResource where
  deployed_models : List DeployedModel
  deriving DecidableEq, Repr

/-- A Vertex AI model object as seen by the orchestrator. -/
structure Model where
  name : String
  gca_resource : GcaResource := ⟨[]⟩
  deriving DecidableEq, Repr

/-- A batch-prediction job handle. -/
structure BatchPredictions where
  job : String
  deriving DecidableEq, Repr

/-- Observable collaborator interactions performed by a method call. -/
inductive Eff where
  | detectCalled (table : String) (ignore : List String)
  | queryBuilt (query_type : String)
  | queryExecuted (sql : String) (dest : String)
  | automlDatasetCreated (table : String)
  | trainingRun (dataset : String)
  | batchPredictionCreated (model : Option String) (table : String)
  | predictionsLoaded (dest : String)
  | modelDeployed (model : Option String)
  | evaluationRun (endpoint : Option String) (bins : Nat)
  | syntheticDataCreated (table : String)
  | dataChecksRun (table : String)
  deriving DecidableEq, Repr

/-- The orchestrator state: the configuration fields of the `CrystalValue`
dataclass (the external `bigquery_client` handle is not state). -/
structure CrystalValue where
  dataset_id : String
  training_table_name : String := "training_data"
  predict_table_name : String := "predict_features_data"
  customer_id_column : String := "customer_id"
  date_column : String := "date"
  value_column : String := "value"
  features_types : Option FeatureTypes := none
  ignore_columns : Option (List String) := none
  location : String := "europe-west4"
  days_lookback : Int := 365
  days_lookahead : Int := 365
  model_id : Option String := none
  endpoint_id : Option String := none
  deriving DecidableEq, Repr

/-- The outcome of a method call: the orchestrator state after the call
(Python objects keep their mutations even when an exception propagates),
the collaborator effects performed, and the returned value or the error. -/
structure Outcome (α : Type) where
  state : CrystalValue
  effects : List Eff
  result : Except PyErr α
  deriving Repr

/-- The shared Python idiom `if not arg: arg = stored`: a falsy argument is
replaced by the stored field, a truthy argument is kept unchanged. -/
def resolveOpt (arg stored : Option String) : Option String :=
  if strTruthy arg then arg else stored

/-- Modelled from the spec: `feature_engineering.run_query` is not under
src/ (only its caller `CrystalValue.run_query` is).  Per the spec, the
query executor accepts either a literal query string or a path to one,
exactly one must be provided and it fails with a precondition error
otherwise; with exactly one provided it executes the query against the
warehouse (reading the file first in the path case) and writes the results
to the named destination table.  `execQ` runs a SQL string against the
warehouse with a destination table; `readFile` reads a SQL file. -/
def feRunQuery (execQ : String → String → Except PyErr DataFrame)
    (readFile : String → Except PyErr String)
    (query_sql query_file : Option String)
    (destination_table_name : String) :
    List Eff × Except PyErr DataFrame :=
  match query_sql, query_file with
  | some q, none =>
      match execQ q destination_table_name with
      | .ok df => ([.queryExecuted q destination_table_name], .ok df)
      | .error e => ([], .error e)
  | none, some f =>
      match readFile f with
      | .error e => ([], .error e)
      | .ok q =>
          match execQ q destination_table_name with
          | .ok df => ([.queryExecuted q destination_table_name], .ok df)
          | .error e => ([], .error e)
  | _, _ =>
      ([], .error (.valueError "One of query_sql or query_file must be provided"))

/-- Embedding of `CrystalValue.run_query`: a thin delegation to
`feature_engineering.run_query`; the orchestrator state is not touched. -/
def CrystalValue.run_query (cv : CrystalValue)
    (execQ : String → String → Except PyErr DataFrame)
    (readFile : String → Except PyErr String)
    (destination_table_name : String)
    (query_sql : Option String := none)
    (query_file : Option String := none) : Outcome DataFrame :=
  let r := feRunQuery execQ readFile query_sql query_file destination_table_name
  ⟨cv, r.1, r.2⟩

/-- Embedding of `CrystalValue.batch_predict`: resolves a falsy `model_id`
argument to the stored field, creates batch predictions, then loads them
into the destination table.  `cbp` embeds `automl.create_batch_predictions`
and `lp` embeds `automl.load_predictions_to_table`. -/
def CrystalValue.batch_predict (cv : CrystalValue)
    (cbp : Option String → String → Except PyErr BatchPredictions)
    (lp : BatchPredictions → String → Except PyErr Unit)
    (input_table_name : String)
    (model_id : Option String)
    (destination_table : String := "crystalvalue_predictions") :
    Outcome Unit :=
  let mid := resolveOpt model_id cv.model_id
  match cbp mid input_table_name with
  | .error e => ⟨cv, [], .error e⟩
  | .ok bp =>
      match lp bp destination_table with
      | .error e => ⟨cv, [.batchPredictionCreated mid input_table_name], .error e⟩
      | .ok _ =>
          ⟨cv, [.batchPredictionCreated mid input_table_name,
                .predictionsLoaded destination_table], .ok ()⟩

/-- The last segment of a string split on the slash character, the
embedding of the Python expression `s.split(&)[-1]` with & the slash. -/
def lastSegment (s : String) : String :=
  (s.splitOn "/").getLastD ""

/-- Embedding of `CrystalValue.deploy_model`: resolves a falsy `model_id`
argument to the stored field, calls `automl.deploy_model` (the oracle
`dep`), then stores the last slash-separated segment of the endpoint of the
first deployed model as `endpoint_id`.  Indexing `deployed_models[0]` on an
empty list raises an IndexError, as in Python. -/
def CrystalValue.deploy_model (cv : CrystalValue)
    (dep : Option String → Except PyErr Model)
    (model_id : Option String := none) : Outcome Model :=
  let mid := resolveOpt model_id cv.model_id
  match dep mid with
  | .error e => ⟨cv, [], .error e⟩
  | .ok model =>
      match model.gca_resource.deployed_models with
      | [] => ⟨cv, [.modelDeployed mid], .error .indexError⟩
      | dm :: _ =>
          ⟨{ cv with endpoint_id := some (lastSegment dm.endpoint) },
           [.modelDeployed mid], .ok model⟩

/-- The mean of a list of rationals (zero for the empty list, since
division by zero is zero in ℚ). -/
def listMean (l : List ℚ) : ℚ := l.sum / l.length

/-- One output row of the evaluator: the number of pairs in the bucket and
the per-bucket statistics named by the spec. -/
structure BinRow where
  bin_size : Nat
  mean_predicted : ℚ
  mean_actual : ℚ
  normalized_mae : ℚ
  normalized_mape : ℚ
  deriving DecidableEq, Repr

/-- Per-bucket statistics for one bucket of matched (predicted, actual)
pairs: mean predicted, mean actual, MAE divided by mean actual, and mean
absolute percentage error. -/
def binRow (pairs : List (ℚ × ℚ)) : BinRow :=
  let ma := listMean (pairs.map Prod.snd)
  { bin_size := pairs.length
    mean_predicted := listMean (pairs.map Prod.fst)
    mean_actual := ma
    normalized_mae := listMean (pairs.map (fun p => |p.1 - p.2|)) / ma
    normalized_mape := listMean (pairs.map (fun p => |p.1 - p.2| / p.2)) }

/-- Ordering used by the evaluator: descending predicted value (the first
component of each pair). -/
def predDesc (a b : ℚ × ℚ) : Prop := b.1 ≤ a.1

instance : DecidableRel predDesc := fun a b => inferInstanceAs (Decidable (b.1 ≤ a.1))

instance : IsTotal (ℚ × ℚ) predDesc := ⟨fun a b => le_total b.1 a.1⟩

instance : IsTrans (ℚ × ℚ) predDesc := ⟨fun _ _ _ h1 h2 => le_trans h2 h1⟩

/-- Splits a list into consecutive chunks of `k + 1` elements each (the
last chunk may be shorter when `k + 1` does not divide the length). -/
def chunksOfPos (k : Nat) : List α → List (List α)
  | [] => []
  | x :: xs => (x :: xs).take (k + 1) :: chunksOfPos k (xs.drop k)
termination_by l => l.length
decreasing_by
  simp only [List.length_drop, List.length_cons]
  omega

/-- Splits a list into consecutive chunks of `size` elements (chunks of one
element when `size` is zero). -/
def chunksOf (size : Nat) (l : List α) : List (List α) :=
  chunksOfPos (size - 1) l

/-- Modelled from the spec: `model_evaluation.evaluate_model_predictions`
is not under src/ (only its caller `CrystalValue.evaluate_model` is).  Per
the spec, the evaluator takes matched predicted and actual values, sorts
them by predicted value descending, partitions them into `number_bins`
equal-sized buckets, and computes the per-bucket statistics of `binRow`.
The global summary statistics (Spearman, normalized Gini) and the
exclusion of null actuals are outside what the claims exercise and are not
modelled: the pairs given here are already the non-null matched pairs. -/
def evaluate_model_predictions (pairs : List (ℚ × ℚ)) (number_bins : Nat) :
    List BinRow :=
  let sorted := List.insertionSort predDesc pairs
  (chunksOf (pairs.length / number_bins) sorted).map binRow

/-- Embedding of `CrystalValue.evaluate_model`: resolves a falsy
`endpoint_id` argument to the stored field, then delegates to
`model_evaluation.evaluate_model_predictions`.  The retrieval of matched
(predicted, actual) pairs from the endpoint is the oracle `fetch`; the
binning computation over those pairs is the spec-modelled evaluator
`evaluate_model_predictions` defined below. -/
def CrystalValue.evaluate_model (cv : CrystalValue)
    (fetch : Option String → Except PyErr (List (ℚ × ℚ)))
    (endpoint_id : Option String)
    (table_evaluation_stats : String := "crystalvalue_evaluation")
    (number_bins : Nat := 10) : Outcome (List BinRow) :=
  let eid := resolveOpt endpoint_id cv.endpoint_id
  match fetch eid with
  | .error e => ⟨cv, [], .error e⟩
  | .ok pairs =>
      ⟨cv, [.evaluationRun eid number_bins],
       .ok (evaluate_model_predictions pairs number_bins)⟩

/-- Embedding of `CrystalValue.create_synthetic_data`: a pure delegation to
`synthetic_data.create_synthetic_data` (oracle `gen`); no orchestrator
field is assigned. -/
def CrystalValue.create_synthetic_data (cv : CrystalValue)
    (gen : String → Except PyErr DataFrame)
    (table_name : String := "synthetic_data") : Outcome DataFrame :=
  match gen table_name with
  | .error e => ⟨cv, [], .error e⟩
  | .ok df => ⟨cv, [.syntheticDataCreated table_name], .ok df⟩

/-- Embedding of `CrystalValue.run_data_checks`: a pure delegation to
`feature_engineering.run_data_checks` (oracle `checks`); no orchestrator
field is assigned. -/
def CrystalValue.run_data_checks (cv : CrystalValue)
    (checks : String → Except PyErr DataFrame)
    (transaction_table_name : String) : Outcome DataFrame :=
  match checks transaction_table_name with
  | .error e => ⟨cv, [], .error e⟩
  | .ok df => ⟨cv, [.dataChecksRun transaction_table_name], .ok df⟩

/-- Embedding of `CrystalValue.train`: creates an AutoML dataset from the
training table then trains an AutoML model, and stores the name of the
returned model as `model_id`.  `cad` embeds `automl.create_automl_dataset`
and `tam` embeds `automl.train_automl_model`. -/
def CrystalValue.train (cv : CrystalValue)
    (cad : String → Except PyErr AutomlDataset)
    (tam : AutomlDataset → Except PyErr Model) : Outcome Model :=
  match cad cv.training_table_name with
  | .error e => ⟨cv, [], .error e⟩
  | .ok ds =>
      match tam ds with
      | .error e => ⟨cv, [.automlDatasetCreated cv.training_table_name], .error e⟩
      | .ok model =>
          ⟨{ cv with model_id := some model.name },
           [.automlDatasetCreated cv.training_table_name, .trainingRun ds.name],
           .ok model⟩

/-- The ignore-column list `feature_engineer` installs before automatic
detection: the customer-id and date columns, followed by the previously
supplied ignore columns when those were truthy (source lines 229 to 233). -/
def newIgnoreColumns (cv : CrystalValue) : List String :=
  if colsTruthy cv.ignore_columns then
    [cv.customer_id_column, cv.date_column] ++ cv.ignore_columns.getD []
  else
    [cv.customer_id_column, cv.date_column]

/-- The second half of `feature_engineer` (source lines 245 to 263): build
the query via `feature_engineering.build_query` (oracle `build`, given the
query type and the feature types in force), dispatch the destination table
on the query type, and run the query.  For a query type other than
train_query and predict_query the local variable `table_name` is never
assigned and its use raises an UnboundLocalError, as in Python. -/
def CrystalValue.buildAndRun (cv : CrystalValue)
    (build : String → FeatureTypes → Except PyErr String)
    (execQ : String → String → Except PyErr DataFrame)
    (readFile : String → Except PyErr String)
    (query_type : String) (effs : List Eff) : Outcome DataFrame :=
  match build query_type (cv.features_types.getD []) with
  | .error e => ⟨cv, effs, .error e⟩
  | .ok query =>
      let table_name : Option String :=
        if query_type == "train_query" then some cv.training_table_name
        else if query_type == "predict_query" then some cv.predict_table_name
        else none
      match table_name with
      | none =>
          ⟨cv, effs ++ [.queryBuilt query_type], .error (.unboundLocalError "table_name")⟩
      | some tbl =>
          let r := feRunQuery execQ readFile (some query) none tbl
          ⟨cv, effs ++ [.queryBuilt query_type] ++ r.1, r.2⟩

/-- Embedding of `CrystalValue.feature_engineer` (source lines 205 to 263).
When `features_types` is falsy it first overwrites `ignore_columns` with
`newIgnoreColumns`, runs automatic detection (oracle `detect`, given the
transaction table and the ignore columns), stores the result in
`features_types`, and raises a ValueError when the detected mapping is
falsy; it then builds and runs the query via `buildAndRun`. -/
def CrystalValue.feature_engineer (cv : CrystalValue)
    (detect : String → List String → Except PyErr FeatureTypes)
    (build : String → FeatureTypes → Except PyErr String)
    (execQ : String → String → Except PyErr DataFrame)
    (readFile : String → Except PyErr String)
    (transaction_table_name : String)
    (query_type : String := "train_query") : Outcome DataFrame :=
  if ftTruthy cv.features_types then
    cv.buildAndRun build execQ readFile query_type []
  else
    let ignore := newIgnoreColumns cv
    let cv1 := { cv with ignore_columns := some ignore }
    match detect transaction_table_name ignore with
    | .error e =>
        ⟨cv1, [.detectCalled transaction_table_name ignore], .error e⟩
    | .ok ft =>
        let cv2 := { cv1 with features_types := some ft }
        if ft.isEmpty then
          ⟨cv2, [.detectCalled transaction_table_name ignore],
           .error (.valueError "No features detected")⟩
        else
          cv2.buildAndRun build execQ readFile query_type
            [.detectCalled transaction_table_name ignore]

/-- Declared data kind of a schema column, as the detector classifies it. -/
inductive ColKind where
  | numeric
  | boolean
  | string_or_categorical
  deriving DecidableEq, Repr

/-- Modelled from the spec: `feature_engineering.detect_feature_types` is
not under src/ (only its caller `CrystalValue.feature_engineer` is).  Per
the spec, given a table schema and a set of columns to ignore, it
classifies each remaining column into exactly one of numeric, boolean, and
string_or_categorical based on its declared data type, and returns a
mapping from category to column-name list; when no classifiable columns
remain the returned mapping is empty, which the caller reports as an
error. -/
def detect_feature_types (schema : List (String × ColKind))
    (ignore : List String) : FeatureTypes :=
  let remaining := schema.filter (fun c => !(ignore.contains c.1))
  ([("numeric", (remaining.filter (fun c => c.2 == .numeric)).map Prod.fst),
    ("boolean", (remaining.filter (fun c => c.2 == .boolean)).map Prod.fst),
    ("string_or_categorical",
      (remaining.filter (fun c => c.2 == .string_or_categorical)).map
        Prod.fst)]).filter (fun kv => !kv.2.isEmpty)

/-- Columns classified by the modelled detector all come from the schema
with the ignored columns removed. -/
theorem detect_feature_types_not_ignored (schema : List (String × ColKind))
    (ignore : List String) (cat : String) (cols : List String)
    (hmem : (cat, cols) ∈ detect_feature_types schema ignore) :
    ∀ c ∈ cols, c ∉ ignore := by
  intro c hc hcig
  simp only [detect_feature_types, List.mem_filter, List.mem_cons,
    List.not_mem_nil, or_false] at hmem
  rcases hmem with ⟨hmem, -⟩
  rcases hmem with h | h | h <;>
  · rcases Prod.mk.injEq .. ▸ h with ⟨-, hcols⟩
    subst hcols
    simp only [List.mem_map, List.mem_filter] at hc
    rcases hc with ⟨p, ⟨⟨-, hpf⟩, -⟩, hpc⟩
    rw [hpc] at hpf
    simp [hcig] at hpf

/-- Sample orchestrator configuration used to instantiate theorems with
hypotheses at concrete inputs. -/
def sampleCV : CrystalValue := { dataset_id := "ds" }

/-- Sample detection oracle returning one numeric feature. -/
def okDetect : String → List String → Except PyErr FeatureTypes :=
  fun _ _ => .ok [("numeric", ["transaction_value"])]

/-- Sample detection oracle returning the empty mapping. -/
def emptyDetect : String → List String → Except PyErr FeatureTypes :=
  fun _ _ => .ok []

/-- Sample query-builder oracle. -/
def okBuild : String → FeatureTypes → Except PyErr String :=
  fun _ _ => .ok "SELECT 1"

/-- Sample warehouse-execution oracle echoing its arguments. -/
def okExec : String → String → Except PyErr DataFrame :=
  fun q d => .ok [[q, d]]

/-- Sample file-reading oracle. -/
def okRead : String → Except PyErr String :=
  fun _ => .ok "SELECT 2"

/-- C1: run_query executes the query and writes to the destination table
when exactly one of query_sql and query_file is provided, and fails with
the precondition ValueError, performing no warehouse call, when both or
neither is provided. -/
theorem run_query_exactly_one (cv : CrystalValue)
    (execQ : String → String → Except PyErr DataFrame)
    (readFile : String → Except PyErr String)
    (dest : String) (query_sql query_file : Option String) :
    ((query_sql.isSome ↔ query_file.isSome) →
      (cv.run_query execQ readFile dest query_sql query_file).result =
        .error (.valueError "One of query_sql or query_file must be provided") ∧
      (cv.run_query execQ readFile dest query_sql query_file).effects = []) ∧
    (∀ q df, query_sql = some q → query_file = none → execQ q dest = .ok df →
      (cv.run_query execQ readFile dest query_sql query_file).result = .ok df ∧
      (cv.run_query execQ readFile dest query_sql query_file).effects =
        [.queryExecuted q dest]) ∧
    (∀ f q df, query_sql = none → query_file = some f → readFile f = .ok q →
      execQ q dest = .ok df →
      (cv.run_query execQ readFile dest query_sql query_file).result = .ok df ∧
      (cv.run_query execQ readFile dest query_sql query_file).effects =
        [.queryExecuted q dest]) := by
  refine ⟨?_, ?_, ?_⟩
  · intro hiff
    match query_sql, query_file with
    | some q, some f => simp [CrystalValue.run_query, feRunQuery]
    | none, none => simp [CrystalValue.run_query, feRunQuery]
    | some q, none => simp at hiff
    | none, some f => simp at hiff
  · rintro q df rfl rfl hex
    simp [CrystalValue.run_query, feRunQuery, hex]
  · rintro f q df rfl rfl hrd hex
    simp [CrystalValue.run_query, feRunQuery, hrd, hex]

/-- Witness for C1 at concrete inputs: with neither argument the call
fails with the precondition error and no effect; with exactly a query
string it executes it into the destination table. -/
theorem run_query_exactly_one_witness :
    ((sampleCV.run_query okExec okRead "t" none none).result =
      .error (.valueError "One of query_sql or query_file must be provided") ∧
     (sampleCV.run_query okExec okRead "t" none none).effects = []) ∧
    ((sampleCV.run_query okExec okRead "t" (some "Q") none).result =
      .ok [["Q", "t"]] ∧
     (sampleCV.run_query okExec okRead "t" (some "Q") none).effects =
      [.queryExecuted "Q" "t"]) :=
  ⟨(run_query_exactly_one sampleCV okExec okRead "t" none none).1 (by simp),
   (run_query_exactly_one sampleCV okExec okRead "t" (some "Q") none).2.1
     "Q" [["Q", "t"]] rfl rfl rfl⟩

/-- C3: batch_predict with a falsy model_id argument behaves exactly as if
called with the stored model_id field, and with a truthy argument its
effects and result do not depend on the stored field. -/
theorem batch_predict_model_id_fallback (cv : CrystalValue)
    (cbp : Option String → String → Except PyErr BatchPredictions)
    (lp : BatchPredictions → String → Except PyErr Unit)
    (itbl : String) (mid : Option String) (dest : String) :
    (strTruthy mid = false →
      cv.batch_predict cbp lp itbl mid dest =
        cv.batch_predict cbp lp itbl cv.model_id dest) ∧
    (strTruthy mid = true → ∀ m',
      (({ cv with model_id := m' }).batch_predict cbp lp itbl mid dest).effects =
        (cv.batch_predict cbp lp itbl mid dest).effects ∧
      (({ cv with model_id := m' }).batch_predict cbp lp itbl mid dest).result =
        (cv.batch_predict cbp lp itbl mid dest).result) := by
  constructor
  · intro hf
    have : resolveOpt mid cv.model_id = resolveOpt cv.model_id cv.model_id := by
      simp only [resolveOpt, hf, if_false]
      cases h : strTruthy cv.model_id <;> simp
    simp only [CrystalValue.batch_predict, this]
  · intro ht m'
    have hres : resolveOpt mid m' = resolveOpt mid cv.model_id := by
      simp [resolveOpt, ht]
    rcases h1 : cbp (resolveOpt mid cv.model_id) itbl with e | bp
    · simp [CrystalValue.batch_predict, hres, h1]
    · rcases h2 : lp bp dest with e | u <;>
        simp [CrystalValue.batch_predict, hres, h1, h2]

/-- Witness for C3 at concrete inputs: a none argument falls back to the
stored model id, and with a truthy argument the stored field is ignored. -/
theorem batch_predict_model_id_fallback_witness :
    (({ sampleCV with model_id := some "M1" }).batch_predict
        (fun m t => .ok ⟨(m.getD "") ++ t⟩) (fun _ _ => .ok ()) "in" none "out" =
      ({ sampleCV with model_id := some "M1" }).batch_predict
        (fun m t => .ok ⟨(m.getD "") ++ t⟩) (fun _ _ => .ok ()) "in"
        (some "M1") "out") ∧
    ((({ sampleCV with model_id := some "OTHER" }).batch_predict
        (fun m t => .ok ⟨(m.getD "") ++ t⟩) (fun _ _ => .ok ()) "in"
        (some "M2") "out").effects =
      (sampleCV.batch_predict
        (fun m t => .ok ⟨(m.getD "") ++ t⟩) (fun _ _ => .ok ()) "in"
        (some "M2") "out").effects) :=
  ⟨(batch_predict_model_id_fallback { sampleCV with model_id := some "M1" }
      (fun m t => .ok ⟨(m.getD "") ++ t⟩) (fun _ _ => .ok ()) "in" none "out").1
      rfl,
   ((batch_predict_model_id_fallback sampleCV
      (fun m t => .ok ⟨(m.getD "") ++ t⟩) (fun _ _ => .ok ()) "in"
      (some "M2") "out").2 rfl (some "OTHER")).1⟩

/-- C10: deploy_model applies the same falsy fallback to model_id, and
evaluate_model applies it to endpoint_id: a falsy argument is replaced by
the stored field, a truthy argument is used with the stored field ignored. -/
theorem deploy_evaluate_falsy_fallback (cv : CrystalValue)
    (dep : Option String → Except PyErr Model)
    (fetch : Option String → Except PyErr (List (ℚ × ℚ)))
    (mid eid : Option String) (tes : String) (bins : Nat) :
    ((strTruthy mid = false →
       cv.deploy_model dep mid = cv.deploy_model dep cv.model_id) ∧
     (strTruthy mid = true → ∀ m',
       (({ cv with model_id := m' }).deploy_model dep mid).effects =
         (cv.deploy_model dep mid).effects ∧
       (({ cv with model_id := m' }).deploy_model dep mid).result =
         (cv.deploy_model dep mid).result)) ∧
    ((strTruthy eid = false →
       cv.evaluate_model fetch eid tes bins =
         cv.evaluate_model fetch cv.endpoint_id tes bins) ∧
     (strTruthy eid = true → ∀ e',
       (({ cv with endpoint_id := e' }).evaluate_model fetch eid tes bins).effects =
         (cv.evaluate_model fetch eid tes bins).effects ∧
       (({ cv with endpoint_id := e' }).evaluate_model fetch eid tes bins).result =
         (cv.evaluate_model fetch eid tes bins).result)) := by
  refine ⟨⟨?_, ?_⟩, ?_, ?_⟩
  · intro hf
    have : resolveOpt mid cv.model_id = resolveOpt cv.model_id cv.model_id := by
      simp only [resolveOpt, hf, if_false]
      cases h : strTruthy cv.model_id <;> simp
    simp only [CrystalValue.deploy_model, this]
  · intro ht m'
    have hres : resolveOpt mid m' = resolveOpt mid cv.model_id := by
      simp [resolveOpt, ht]
    rcases h1 : dep (resolveOpt mid cv.model_id) with e | model
    · simp [CrystalValue.deploy_model, hres, h1]
    · rcases h2 : model.gca_resource.deployed_models with - | ⟨dm, rest⟩ <;>
        simp [CrystalValue.deploy_model, hres, h1, h2]
  · intro hf
    have : resolveOpt eid cv.endpoint_id = resolveOpt cv.endpoint_id cv.endpoint_id := by
      simp only [resolveOpt, hf, if_false]
      cases h : strTruthy cv.endpoint_id <;> simp
    simp only [CrystalValue.evaluate_model, this]
  · intro ht e'
    have hres : resolveOpt eid e' = resolveOpt eid cv.endpoint_id := by
      simp [resolveOpt, ht]
    rcases h1 : fetch (resolveOpt eid cv.endpoint_id) with e | pairs <;>
      simp [CrystalValue.evaluate_model, hres, h1]

/-- Witness for C10 at concrete inputs: deploy_model with a none argument
equals deploy_model on the stored model id, and evaluate_model with a
truthy argument ignores the stored endpoint id. -/
theorem deploy_evaluate_falsy_fallback_witness :
    (({ sampleCV with model_id := some "M1" }).deploy_model
        (fun _ => .ok { name := "m" }) none =
      ({ sampleCV with model_id := some "M1" }).deploy_model
        (fun _ => .ok { name := "m" }) (some "M1")) ∧
    ((({ sampleCV with endpoint_id := some "E9" }).evaluate_model
        (fun _ => .ok []) (some "E1") "tbl" 10).result =
      (sampleCV.evaluate_model (fun _ => .ok []) (some "E1") "tbl" 10).result) :=
  ⟨((deploy_evaluate_falsy_fallback { sampleCV with model_id := some "M1" }
      (fun _ => .ok { name := "m" }) (fun _ => .ok []) none (some "E1")
      "tbl" 10).1).1 rfl,
   (((deploy_evaluate_falsy_fallback sampleCV
      (fun _ => .ok { name := "m" }) (fun _ => .ok []) none (some "E1")
      "tbl" 10).2).2 rfl (some "E9")).2⟩

/-- The helper `buildAndRun` never changes the orchestrator state. -/
theorem buildAndRun_state (cv : CrystalValue)
    (build : String → FeatureTypes → Except PyErr String)
    (execQ : String → String → Except PyErr DataFrame)
    (readFile : String → Except PyErr String)
    (qt : String) (effs : List Eff) :
    (cv.buildAndRun build execQ readFile qt effs).state = cv := by
  unfold CrystalValue.buildAndRun
  rcases h : build qt (cv.features_types.getD []) with e | q <;> simp only [h]
  split <;> rfl

/-- The helper `buildAndRun` only appends to the effects it is given. -/
theorem buildAndRun_effects_append (cv : CrystalValue)
    (build : String → FeatureTypes → Except PyErr String)
    (execQ : String → String → Except PyErr DataFrame)
    (readFile : String → Except PyErr String)
    (qt : String) (effs : List Eff) :
    ∃ tail, (cv.buildAndRun build execQ readFile qt effs).effects = effs ++ tail := by
  unfold CrystalValue.buildAndRun
  rcases h : build qt (cv.features_types.getD []) with e | q <;> simp only [h]
  · exact ⟨[], (List.append_nil _).symm⟩
  · split
    · exact ⟨[.queryBuilt qt], rfl⟩
    · rename_i tblname heq
      exact ⟨[.queryBuilt qt] ++
        (feRunQuery execQ readFile (some q) none tblname).1, by simp⟩

/-- An effect handed to `buildAndRun` stays among the effects it reports. -/
theorem mem_buildAndRun_effects (cv : CrystalValue)
    (build : String → FeatureTypes → Except PyErr String)
    (execQ : String → String → Except PyErr DataFrame)
    (readFile : String → Except PyErr String)
    (qt : String) (effs : List Eff) (x : Eff) (hx : x ∈ effs) :
    x ∈ (cv.buildAndRun build execQ readFile qt effs).effects := by
  obtain ⟨tail, htail⟩ := buildAndRun_effects_append cv build execQ readFile qt effs
  rw [htail]
  exact List.mem_append_left _ hx

/-- The state after `feature_engineer` when automatic detection runs:
`ignore_columns` is overwritten with `newIgnoreColumns`, and
`features_types` is set to whatever the detector returned (unchanged when
the detector itself raised). -/
theorem feature_engineer_state_detect (cv : CrystalValue)
    (detect : String → List String → Except PyErr FeatureTypes)
    (build : String → FeatureTypes → Except PyErr String)
    (execQ : String → String → Except PyErr DataFrame)
    (readFile : String → Except PyErr String)
    (tbl qt : String)
    (h : ftTruthy cv.features_types = false) :
    (cv.feature_engineer detect build execQ readFile tbl qt).state =
      match detect tbl (newIgnoreColumns cv) with
      | .error _ => { cv with ignore_columns := some (newIgnoreColumns cv) }
      | .ok ft => { cv with ignore_columns := some (newIgnoreColumns cv),
                            features_types := some ft } := by
  unfold CrystalValue.feature_engineer
  rcases hd : detect tbl (newIgnoreColumns cv) with e | ft
  · simp [h, hd]
  · cases hft : ft.isEmpty
    · simp [h, hd, hft, buildAndRun_state]
    · simp [h, hd, hft]

/-- The state after `feature_engineer` when `features_types` was already
truthy: nothing changes. -/
theorem feature_engineer_state_truthy (cv : CrystalValue)
    (detect : String → List String → Except PyErr FeatureTypes)
    (build : String → FeatureTypes → Except PyErr String)
    (execQ : String → String → Except PyErr DataFrame)
    (readFile : String → Except PyErr String)
    (tbl qt : String)
    (h : ftTruthy cv.features_types = true) :
    (cv.feature_engineer detect build execQ readFile tbl qt).state = cv := by
  unfold CrystalValue.feature_engineer
  simp only [h, if_true]
  exact buildAndRun_state ..

/-- C2: when automatic detection runs and returns the empty mapping,
feature_engineer raises the ValueError with message No features detected
and neither builds nor executes any query; when detection returns a
non-empty mapping, no such error is raised and the call proceeds to the
query-building stage. -/
theorem no_features_detected_error (cv : CrystalValue)
    (detect : String → List String → Except PyErr FeatureTypes)
    (build : String → FeatureTypes → Except PyErr String)
    (execQ : String → String → Except PyErr DataFrame)
    (readFile : String → Except PyErr String)
    (tbl qt : String)
    (h : ftTruthy cv.features_types = false) :
    (detect tbl (newIgnoreColumns cv) = .ok [] →
      (cv.feature_engineer detect build execQ readFile tbl qt).result =
        .error (.valueError "No features detected") ∧
      (cv.feature_engineer detect build execQ readFile tbl qt).effects =
        [.detectCalled tbl (newIgnoreColumns cv)]) ∧
    (∀ ft, detect tbl (newIgnoreColumns cv) = .ok ft → ft ≠ [] →
      cv.feature_engineer detect build execQ readFile tbl qt =
        ({ cv with ignore_columns := some (newIgnoreColumns cv),
                   features_types := some ft }).buildAndRun build execQ readFile qt
          [.detectCalled tbl (newIgnoreColumns cv)]) := by
  constructor
  · intro hd
    unfold CrystalValue.feature_engineer
    simp [h, hd]
  · intro ft hd hne
    unfold CrystalValue.feature_engineer
    simp [h, hd, List.isEmpty_iff, hne]

/-- Witness for C2 at concrete inputs: an empty detection result yields
the No features detected error with only the detection effect, and a
non-empty one proceeds to build and execute the training query. -/
theorem no_features_detected_error_witness :
    ((sampleCV.feature_engineer emptyDetect okBuild okExec okRead
        "tx" "train_query").result =
      .error (.valueError "No features detected") ∧
     (sampleCV.feature_engineer emptyDetect okBuild okExec okRead
        "tx" "train_query").effects =
      [.detectCalled "tx" (newIgnoreColumns sampleCV)]) ∧
    (sampleCV.feature_engineer okDetect okBuild okExec okRead
        "tx" "train_query" =
      ({ sampleCV with ignore_columns := some (newIgnoreColumns sampleCV),
                       features_types :=
                         some [("numeric", ["transaction_value"])] }).buildAndRun
        okBuild okExec okRead "train_query"
        [.detectCalled "tx" (newIgnoreColumns sampleCV)]) :=
  ⟨(no_features_detected_error sampleCV emptyDetect okBuild okExec okRead
      "tx" "train_query" rfl).1 rfl,
   (no_features_detected_error sampleCV okDetect okBuild okExec okRead
      "tx" "train_query" rfl).2 [("numeric", ["transaction_value"])] rfl
      (by decide)⟩

/-- C9: whenever automatic detection runs, feature_engineer first
overwrites ignore_columns with the customer-id and date columns followed
by any previously supplied ignore columns, the detector is invoked with
exactly that list, the mutation persists on the orchestrator after the
call, and the modelled detector never classifies an ignored column, so in
particular the customer-id and date columns are never classified. -/
theorem ignore_columns_overwritten (cv : CrystalValue)
    (detect : String → List String → Except PyErr FeatureTypes)
    (build : String → FeatureTypes → Except PyErr String)
    (execQ : String → String → Except PyErr DataFrame)
    (readFile : String → Except PyErr String)
    (tbl qt : String)
    (h : ftTruthy cv.features_types = false) :
    (colsTruthy cv.ignore_columns = false →
      newIgnoreColumns cv = [cv.customer_id_column, cv.date_column]) ∧
    (∀ prev, cv.ignore_columns = some prev → prev ≠ [] →
      newIgnoreColumns cv = [cv.customer_id_column, cv.date_column] ++ prev) ∧
    (cv.feature_engineer detect build execQ readFile tbl qt).state.ignore_columns =
      some (newIgnoreColumns cv) ∧
    .detectCalled tbl (newIgnoreColumns cv) ∈
      (cv.feature_engineer detect build execQ readFile tbl qt).effects ∧
    (∀ schema cat cols,
      (cat, cols) ∈ detect_feature_types schema (newIgnoreColumns cv) →
      cv.customer_id_column ∉ cols ∧ cv.date_column ∉ cols) := by
  refine ⟨?_, ?_, ?_, ?_, ?_⟩
  · intro hf
    simp [newIgnoreColumns, hf]
  · intro prev hprev hne
    simp [newIgnoreColumns, colsTruthy, hprev, List.isEmpty_iff, hne]
  · rw [feature_engineer_state_detect cv detect build execQ readFile tbl qt h]
    rcases detect tbl (newIgnoreColumns cv) with e | ft <;> rfl
  · unfold CrystalValue.feature_engineer
    rcases hd : detect tbl (newIgnoreColumns cv) with e | ft
    · simp [h, hd]
    · cases hft : ft.isEmpty
      · simp only [h, hd, hft, Bool.false_eq_true, if_false]
        exact mem_buildAndRun_effects _ build execQ readFile qt _ _ (by simp)
      · simp [h, hd, hft]
  · intro schema cat cols hmem
    have hni := detect_feature_types_not_ignored schema (newIgnoreColumns cv)
      cat cols hmem
    have hcid : cv.customer_id_column ∈ newIgnoreColumns cv := by
      unfold newIgnoreColumns
      split <;> simp
    have hdate : cv.date_column ∈ newIgnoreColumns cv := by
      unfold newIgnoreColumns
      split <;> simp
    exact ⟨fun hc => hni _ hc hcid, fun hc => hni _ hc hdate⟩

/-- Witness for C9 at concrete inputs: with previously supplied ignore
columns, the installed list prepends the customer-id and date columns and
persists on the orchestrator after the call. -/
theorem ignore_columns_overwritten_witness :
    newIgnoreColumns { sampleCV with ignore_columns := some ["extra"] } =
      ["customer_id", "date"] ++ ["extra"] ∧
    (({ sampleCV with ignore_columns := some ["extra"] }).feature_engineer
        okDetect okBuild okExec okRead "tx"
        "train_query").state.ignore_columns =
      some (newIgnoreColumns { sampleCV with ignore_columns := some ["extra"] }) :=
  ⟨(ignore_columns_overwritten { sampleCV with ignore_columns := some ["extra"] }
      okDetect okBuild okExec okRead "tx" "train_query" rfl).2.1 ["extra"] rfl
      (by decide),
   (ignore_columns_overwritten { sampleCV with ignore_columns := some ["extra"] }
      okDetect okBuild okExec okRead "tx" "train_query" rfl).2.2.1⟩

/-- C8: feature_engineer delegates its destination-table dispatch to a
non-exhaustive chain: after the query is successfully built, a query type
other than train_query and predict_query leaves table_name unassigned and
the call fails with an UnboundLocalError rather than a descriptive
precondition error, and the built query is never executed; for the two
recognized query types the destination table is respectively the training
table and the prediction table. -/
theorem query_type_dispatch (cv : CrystalValue)
    (detect : String → List String → Except PyErr FeatureTypes)
    (build : String → FeatureTypes → Except PyErr String)
    (execQ : String → String → Except PyErr DataFrame)
    (readFile : String → Except PyErr String)
    (tbl qt : String) (effs : List Eff) :
    (ftTruthy cv.features_types = true →
      cv.feature_engineer detect build execQ readFile tbl qt =
        cv.buildAndRun build execQ readFile qt []) ∧
    (∀ q, build qt (cv.features_types.getD []) = .ok q →
      qt ≠ "train_query" → qt ≠ "predict_query" →
      (cv.buildAndRun build execQ readFile qt effs).result =
        .error (.unboundLocalError "table_name") ∧
      (cv.buildAndRun build execQ readFile qt effs).effects =
        effs ++ [.queryBuilt qt]) ∧
    (∀ q df, build "train_query" (cv.features_types.getD []) = .ok q →
      execQ q cv.training_table_name = .ok df →
      (cv.buildAndRun build execQ readFile "train_query" effs).result = .ok df ∧
      (cv.buildAndRun build execQ readFile "train_query" effs).effects =
        effs ++ [.queryBuilt "train_query",
                 .queryExecuted q cv.training_table_name]) ∧
    (∀ q df, build "predict_query" (cv.features_types.getD []) = .ok q →
      execQ q cv.predict_table_name = .ok df →
      (cv.buildAndRun build execQ readFile "predict_query" effs).result = .ok df ∧
      (cv.buildAndRun build execQ readFile "predict_query" effs).effects =
        effs ++ [.queryBuilt "predict_query",
                 .queryExecuted q cv.predict_table_name]) := by
  refine ⟨?_, ?_, ?_, ?_⟩
  · intro ht
    unfold CrystalValue.feature_engineer
    simp [ht]
  · intro q hb hnt hnp
    unfold CrystalValue.buildAndRun
    simp [hb, hnt, hnp]
  · intro q df hb hex
    unfold CrystalValue.buildAndRun
    simp [hb, feRunQuery, hex]
  · intro q df hb hex
    unfold CrystalValue.buildAndRun
    simp [hb, feRunQuery, hex]

/-- Witness for C8 at concrete inputs: with a bogus query type the call
fails with the UnboundLocalError for table_name after building the query,
and with train_query the query is executed into the training table. -/
theorem query_type_dispatch_witness :
    ((sampleCV.buildAndRun okBuild okExec okRead "bogus" []).result =
      .error (.unboundLocalError "table_name") ∧
     (sampleCV.buildAndRun okBuild okExec okRead "bogus" []).effects =
      [] ++ [.queryBuilt "bogus"]) ∧
    ((sampleCV.buildAndRun okBuild okExec okRead "train_query" []).result =
      .ok [["SELECT 1", "training_data"]] ∧
     (sampleCV.buildAndRun okBuild okExec okRead "train_query" []).effects =
      [] ++ [.queryBuilt "train_query",
             .queryExecuted "SELECT 1" "training_data"]) :=
  ⟨(query_type_dispatch sampleCV okDetect okBuild okExec okRead "tx" "bogus"
      []).2.1 "SELECT 1" rfl (by decide) (by decide),
   (query_type_dispatch sampleCV okDetect okBuild okExec okRead "tx" "bogus"
      []).2.2.1 "SELECT 1" [["SELECT 1", "training_data"]] rfl rfl⟩

/-- Counterexample to C5 as stated: a feature_engineer call that runs
automatic detection does change a configuration field other than the
feature-type mapping, namely ignore_columns. -/
theorem detection_not_side_effect_free :
    (({ sampleCV with ignore_columns := some ["extra"] }).feature_engineer
        okDetect okBuild okExec okRead "tx" "train_query").state.ignore_columns ≠
      ({ sampleCV with ignore_columns := some ["extra"] } :
        CrystalValue).ignore_columns := by
  decide

/-- C5 as amended: a feature_engineer call that runs automatic detection
leaves every configuration field unchanged except features_types and
ignore_columns; ignore_columns is overwritten with the customer-id and
date columns followed by any previously supplied ignore columns. -/
theorem detection_step_frame (cv : CrystalValue)
    (detect : String → List String → Except PyErr FeatureTypes)
    (build : String → FeatureTypes → Except PyErr String)
    (execQ : String → String → Except PyErr DataFrame)
    (readFile : String → Except PyErr String)
    (tbl qt : String)
    (h : ftTruthy cv.features_types = false) :
    (cv.feature_engineer detect build execQ readFile tbl qt).state.dataset_id =
      cv.dataset_id ∧
    (cv.feature_engineer detect build execQ readFile tbl
        qt).state.training_table_name = cv.training_table_name ∧
    (cv.feature_engineer detect build execQ readFile tbl
        qt).state.predict_table_name = cv.predict_table_name ∧
    (cv.feature_engineer detect build execQ readFile tbl
        qt).state.customer_id_column = cv.customer_id_column ∧
    (cv.feature_engineer detect build execQ readFile tbl qt).state.date_column =
      cv.date_column ∧
    (cv.feature_engineer detect build execQ readFile tbl qt).state.value_column =
      cv.value_column ∧
    (cv.feature_engineer detect build execQ readFile tbl qt).state.location =
      cv.location ∧
    (cv.feature_engineer detect build execQ readFile tbl qt).state.days_lookback =
      cv.days_lookback ∧
    (cv.feature_engineer detect build execQ readFile tbl
        qt).state.days_lookahead = cv.days_lookahead ∧
    (cv.feature_engineer detect build execQ readFile tbl qt).state.model_id =
      cv.model_id ∧
    (cv.feature_engineer detect build execQ readFile tbl qt).state.endpoint_id =
      cv.endpoint_id ∧
    (cv.feature_engineer detect build execQ readFile tbl
        qt).state.ignore_columns = some (newIgnoreColumns cv) := by
  rw [feature_engineer_state_detect cv detect build execQ readFile tbl qt h]
  rcases detect tbl (newIgnoreColumns cv) with e | ft <;>
    exact ⟨rfl, rfl, rfl, rfl, rfl, rfl, rfl, rfl, rfl, rfl, rfl, rfl⟩

/-- Witness for the amended C5 at concrete inputs. -/
theorem detection_step_frame_witness :
    (({ sampleCV with ignore_columns := some ["extra"] }).feature_engineer
        okDetect okBuild okExec okRead "tx" "train_query").state.model_id =
      ({ sampleCV with ignore_columns := some ["extra"] } :
        CrystalValue).model_id ∧
    (({ sampleCV with ignore_columns := some ["extra"] }).feature_engineer
        okDetect okBuild okExec okRead "tx"
        "train_query").state.ignore_columns =
      some (newIgnoreColumns { sampleCV with ignore_columns := some ["extra"] }) :=
  ⟨(detection_step_frame { sampleCV with ignore_columns := some ["extra"] }
      okDetect okBuild okExec okRead "tx" "train_query" rfl).2.2.2.2.2.2.2.2.2.1,
   (detection_step_frame { sampleCV with ignore_columns := some ["extra"] }
      okDetect okBuild okExec okRead "tx"
      "train_query" rfl).2.2.2.2.2.2.2.2.2.2.2⟩

/-- C4: a successful train stores the name of the returned model as
model_id, a successful deploy_model stores the last slash-separated
segment of the endpoint of the first deployed model as endpoint_id, and no
other orchestrator method changes either field: train leaves endpoint_id
unchanged on every path and leaves model_id unchanged on failure paths,
deploy_model leaves model_id unchanged on every path and leaves
endpoint_id unchanged on failure paths, and every remaining method leaves
the whole state, and in particular both fields, unchanged. -/
theorem identifiers_persisted :
    (∀ (cv : CrystalValue) (cad : String → Except PyErr AutomlDataset)
        (tam : AutomlDataset → Except PyErr Model) ds model,
      cad cv.training_table_name = .ok ds → tam ds = .ok model →
      (cv.train cad tam).state = { cv with model_id := some model.name } ∧
      (cv.train cad tam).result = .ok model) ∧
    (∀ (cv : CrystalValue) (cad : String → Except PyErr AutomlDataset)
        (tam : AutomlDataset → Except PyErr Model),
      (cv.train cad tam).state.endpoint_id = cv.endpoint_id) ∧
    (∀ (cv : CrystalValue) (cad : String → Except PyErr AutomlDataset)
        (tam : AutomlDataset → Except PyErr Model) e,
      cad cv.training_table_name = .error e → (cv.train cad tam).state = cv) ∧
    (∀ (cv : CrystalValue) (cad : String → Except PyErr AutomlDataset)
        (tam : AutomlDataset → Except PyErr Model) ds e,
      cad cv.training_table_name = .ok ds → tam ds = .error e →
      (cv.train cad tam).state = cv) ∧
    (∀ (cv : CrystalValue) (dep : Option String → Except PyErr Model)
        mid model dm rest,
      dep (resolveOpt mid cv.model_id) = .ok model →
      model.gca_resource.deployed_models = dm :: rest →
      (cv.deploy_model dep mid).state =
        { cv with endpoint_id := some (lastSegment dm.endpoint) } ∧
      (cv.deploy_model dep mid).result = .ok model) ∧
    (∀ (cv : CrystalValue) (dep : Option String → Except PyErr Model) mid,
      (cv.deploy_model dep mid).state.model_id = cv.model_id) ∧
    (∀ (cv : CrystalValue) (dep : Option String → Except PyErr Model) mid e,
      dep (resolveOpt mid cv.model_id) = .error e →
      (cv.deploy_model dep mid).state = cv) ∧
    (∀ (cv : CrystalValue) (dep : Option String → Except PyErr Model) mid model,
      dep (resolveOpt mid cv.model_id) = .ok model →
      model.gca_resource.deployed_models = [] →
      (cv.deploy_model dep mid).state = cv) ∧
    (∀ (cv : CrystalValue) (gen : String → Except PyErr DataFrame) tbl,
      (cv.create_synthetic_data gen tbl).state = cv) ∧
    (∀ (cv : CrystalValue) (checks : String → Except PyErr DataFrame) tbl,
      (cv.run_data_checks checks tbl).state = cv) ∧
    (∀ (cv : CrystalValue) (execQ : String → String → Except PyErr DataFrame)
        (readFile : String → Except PyErr String) dest qs qf,
      (cv.run_query execQ readFile dest qs qf).state = cv) ∧
    (∀ (cv : CrystalValue)
        (cbp : Option String → String → Except PyErr BatchPredictions)
        (lp : BatchPredictions → String → Except PyErr Unit) itbl mid dest,
      (cv.batch_predict cbp lp itbl mid dest).state = cv) ∧
    (∀ (cv : CrystalValue)
        (fetch : Option String → Except PyErr (List (ℚ × ℚ))) eid tes bins,
      (cv.evaluate_model fetch eid tes bins).state = cv) ∧
    (∀ (cv : CrystalValue)
        (detect : String → List String → Except PyErr FeatureTypes)
        (build : String → FeatureTypes → Except PyErr String)
        (execQ : String → String → Except PyErr DataFrame)
        (readFile : String → Except PyErr String) tbl qt,
      (cv.feature_engineer detect build execQ readFile tbl qt).state.model_id =
        cv.model_id ∧
      (cv.feature_engineer detect build execQ readFile tbl
          qt).state.endpoint_id = cv.endpoint_id) := by
  refine ⟨?_, ?_, ?_, ?_, ?_, ?_, ?_, ?_, ?_, ?_, ?_, ?_, ?_, ?_⟩
  · intro cv cad tam ds model h1 h2
    unfold CrystalValue.train
    simp [h1, h2]
  · intro cv cad tam
    unfold CrystalValue.train
    rcases h1 : cad cv.training_table_name with e | ds
    · simp [h1]
    · rcases h2 : tam ds with e | model <;> simp [h1, h2]
  · intro cv cad tam e h1
    unfold CrystalValue.train
    simp [h1]
  · intro cv cad tam ds e h1 h2
    unfold CrystalValue.train
    simp [h1, h2]
  · intro cv dep mid model dm rest h1 h2
    unfold CrystalValue.deploy_model
    simp [h1, h2]
  · intro cv dep mid
    unfold CrystalValue.deploy_model
    rcases h1 : dep (resolveOpt mid cv.model_id) with e | model
    · simp [h1]
    · rcases h2 : model.gca_resource.deployed_models with - | ⟨dm, rest⟩ <;>
        simp [h1, h2]
  · intro cv dep mid e h1
    unfold CrystalValue.deploy_model
    simp [h1]
  · intro cv dep mid model h1 h2
    unfold CrystalValue.deploy_model
    simp [h1, h2]
  · intro cv gen tbl
    unfold CrystalValue.create_synthetic_data
    rcases gen tbl with e | df <;> rfl
  · intro cv checks tbl
    unfold CrystalValue.run_data_checks
    rcases checks tbl with e | df <;> rfl
  · intro cv execQ readFile dest qs qf
    rfl
  · intro cv cbp lp itbl mid dest
    unfold CrystalValue.batch_predict
    rcases h1 : cbp (resolveOpt mid cv.model_id) itbl with e | bp
    · simp [h1]
    · rcases h2 : lp bp dest with e | u <;> simp [h1, h2]
  · intro cv fetch eid tes bins
    unfold CrystalValue.evaluate_model
    rcases h : fetch (resolveOpt eid cv.endpoint_id) with e | pairs <;> simp [h]
  · intro cv detect build execQ readFile tbl qt
    cases h : ftTruthy cv.features_types
    · rw [feature_engineer_state_detect cv detect build execQ readFile tbl qt h]
      rcases detect tbl (newIgnoreColumns cv) with e | ft <;> exact ⟨rfl, rfl⟩
    · rw [feature_engineer_state_truthy cv detect build execQ readFile tbl qt h]
      exact ⟨rfl, rfl⟩

/-- Witness for C4 at concrete inputs: a successful train stores the
returned model name, and a successful deploy stores the last segment of
the endpoint of the first deployed model. -/
theorem identifiers_persisted_witness :
    (sampleCV.train (fun t => .ok ⟨t⟩) (fun _ => .ok { name := "M77" })).state =
      { sampleCV with model_id := some "M77" } ∧
    (sampleCV.deploy_model
        (fun _ => .ok { name := "m",
                        gca_resource := ⟨[⟨"projects/p/endpoints/E7"⟩]⟩ })
        (some "M77")).state =
      { sampleCV with
          endpoint_id := some (lastSegment "projects/p/endpoints/E7") } :=
  ⟨(identifiers_persisted.1 sampleCV (fun t => .ok ⟨t⟩)
      (fun _ => .ok { name := "M77" }) ⟨"training_data"⟩ { name := "M77" }
      rfl rfl).1,
   (identifiers_persisted.2.2.2.2.1 sampleCV
      (fun _ => .ok { name := "m",
                      gca_resource := ⟨[⟨"projects/p/endpoints/E7"⟩]⟩ })
      (some "M77") { name := "m",
                     gca_resource := ⟨[⟨"projects/p/endpoints/E7"⟩]⟩ }
      ⟨"projects/p/endpoints/E7"⟩ [] rfl rfl).1⟩

/-- C7: an error raised by any collaborator call propagates unchanged to
the caller of the orchestrator method that made it: there is no catching,
no retrying, and no substitution of a different error, on any method. -/
theorem errors_propagate_unchanged :
    (∀ (cv : CrystalValue) (execQ : String → String → Except PyErr DataFrame)
        (readFile : String → Except PyErr String) dest q (e : PyErr),
      execQ q dest = .error e →
      (cv.run_query execQ readFile dest (some q) none).result = .error e) ∧
    (∀ (cv : CrystalValue) (execQ : String → String → Except PyErr DataFrame)
        (readFile : String → Except PyErr String) dest f (e : PyErr),
      readFile f = .error e →
      (cv.run_query execQ readFile dest none (some f)).result = .error e) ∧
    (∀ (cv : CrystalValue)
        (detect : String → List String → Except PyErr FeatureTypes)
        (build : String → FeatureTypes → Except PyErr String)
        (execQ : String → String → Except PyErr DataFrame)
        (readFile : String → Except PyErr String) tbl qt (e : PyErr),
      ftTruthy cv.features_types = false →
      detect tbl (newIgnoreColumns cv) = .error e →
      (cv.feature_engineer detect build execQ readFile tbl qt).result =
        .error e) ∧
    (∀ (cv : CrystalValue) (build : String → FeatureTypes → Except PyErr String)
        (execQ : String → String → Except PyErr DataFrame)
        (readFile : String → Except PyErr String) qt effs (e : PyErr),
      build qt (cv.features_types.getD []) = .error e →
      (cv.buildAndRun build execQ readFile qt effs).result = .error e) ∧
    (∀ (cv : CrystalValue) (build : String → FeatureTypes → Except PyErr String)
        (execQ : String → String → Except PyErr DataFrame)
        (readFile : String → Except PyErr String) effs q (e : PyErr),
      build "train_query" (cv.features_types.getD []) = .ok q →
      execQ q cv.training_table_name = .error e →
      (cv.buildAndRun build execQ readFile "train_query" effs).result =
        .error e) ∧
    (∀ (cv : CrystalValue) (cad : String → Except PyErr AutomlDataset)
        (tam : AutomlDataset → Except PyErr Model) (e : PyErr),
      cad cv.training_table_name = .error e →
      (cv.train cad tam).result = .error e) ∧
    (∀ (cv : CrystalValue) (cad : String → Except PyErr AutomlDataset)
        (tam : AutomlDataset → Except PyErr Model) ds (e : PyErr),
      cad cv.training_table_name = .ok ds → tam ds = .error e →
      (cv.train cad tam).result = .error e) ∧
    (∀ (cv : CrystalValue)
        (cbp : Option String → String → Except PyErr BatchPredictions)
        (lp : BatchPredictions → String → Except PyErr Unit)
        itbl mid dest (e : PyErr),
      cbp (resolveOpt mid cv.model_id) itbl = .error e →
      (cv.batch_predict cbp lp itbl mid dest).result = .error e) ∧
    (∀ (cv : CrystalValue)
        (cbp : Option String → String → Except PyErr BatchPredictions)
        (lp : BatchPredictions → String → Except PyErr Unit)
        itbl mid dest bp (e : PyErr),
      cbp (resolveOpt mid cv.model_id) itbl = .ok bp →
      lp bp dest = .error e →
      (cv.batch_predict cbp lp itbl mid dest).result = .error e) ∧
    (∀ (cv : CrystalValue) (dep : Option String → Except PyErr Model)
        mid (e : PyErr),
      dep (resolveOpt mid cv.model_id) = .error e →
      (cv.deploy_model dep mid).result = .error e) ∧
    (∀ (cv : CrystalValue)
        (fetch : Option String → Except PyErr (List (ℚ × ℚ)))
        eid tes bins (e : PyErr),
      fetch (resolveOpt eid cv.endpoint_id) = .error e →
      (cv.evaluate_model fetch eid tes bins).result = .error e) ∧
    (∀ (cv : CrystalValue) (gen : String → Except PyErr DataFrame)
        tbl (e : PyErr),
      gen tbl = .error e →
      (cv.create_synthetic_data gen tbl).result = .error e) ∧
    (∀ (cv : CrystalValue) (checks : String → Except PyErr DataFrame)
        tbl (e : PyErr),
      checks tbl = .error e →
      (cv.run_data_checks checks tbl).result = .error e) := by
  refine ⟨?_, ?_, ?_, ?_, ?_, ?_, ?_, ?_, ?_, ?_, ?_, ?_, ?_⟩
  · intro cv execQ readFile dest q e h
    simp [CrystalValue.run_query, feRunQuery, h]
  · intro cv execQ readFile dest f e h
    simp [CrystalValue.run_query, feRunQuery, h]
  · intro cv detect build execQ readFile tbl qt e hft h
    unfold CrystalValue.feature_engineer
    simp [hft, h]
  · intro cv build execQ readFile qt effs e h
    unfold CrystalValue.buildAndRun
    simp [h]
  · intro cv build execQ readFile effs q e hb hex
    unfold CrystalValue.buildAndRun
    simp [hb, feRunQuery, hex]
  · intro cv cad tam e h
    unfold CrystalValue.train
    simp [h]
  · intro cv cad tam ds e h1 h2
    unfold CrystalValue.train
    simp [h1, h2]
  · intro cv cbp lp itbl mid dest e h
    unfold CrystalValue.batch_predict
    simp [h]
  · intro cv cbp lp itbl mid dest bp e h1 h2
    unfold CrystalValue.batch_predict
    simp [h1, h2]
  · intro cv dep mid e h
    unfold CrystalValue.deploy_model
    simp [h]
  · intro cv fetch eid tes bins e h
    unfold CrystalValue.evaluate_model
    simp [h]
  · intro cv gen tbl e h
    unfold CrystalValue.create_synthetic_data
    simp [h]
  · intro cv checks tbl e h
    unfold CrystalValue.run_data_checks
    simp [h]

/-- Witness for C7 at concrete inputs: a warehouse failure surfaces from
run_query unchanged, and a training failure surfaces from train
unchanged. -/
theorem errors_propagate_unchanged_witness :
    (sampleCV.run_query (fun _ _ => .error (.external "warehouse down"))
        okRead "t" (some "Q") none).result =
      .error (.external "warehouse down") ∧
    (sampleCV.train (fun t => .ok ⟨t⟩)
        (fun _ => .error (.external "training failed"))).result =
      .error (.external "training failed") :=
  ⟨errors_propagate_unchanged.1 sampleCV
      (fun _ _ => .error (.external "warehouse down")) okRead "t" "Q"
      (.external "warehouse down") rfl,
   errors_propagate_unchanged.2.2.2.2.2.2.1 sampleCV (fun t => .ok ⟨t⟩)
      (fun _ => .error (.external "training failed")) ⟨"training_data"⟩
      (.external "training failed") rfl rfl⟩

/-- Unfolding equation for `chunksOfPos` on the empty list. -/
theorem chunksOfPos_nil (k : Nat) : chunksOfPos k ([] : List α) = [] := by
  rw [chunksOfPos]

/-- Unfolding equation for `chunksOfPos` on a cons cell. -/
theorem chunksOfPos_cons (k : Nat) (x : α) (xs : List α) :
    chunksOfPos k (x :: xs) =
      (x :: xs).take (k + 1) :: chunksOfPos k (xs.drop k) := by
  rw [chunksOfPos]

/-- On a list of length `(k + 1) * n`, `chunksOfPos k` yields exactly `n`
chunks, each of length `k + 1`. -/
theorem chunksOfPos_length_eq (k : Nat) :
    ∀ (n : Nat) (l : List α), l.length = (k + 1) * n →
      (chunksOfPos k l).length = n ∧ ∀ c ∈ chunksOfPos k l, c.length = k + 1 := by
  intro n
  induction n with
  | zero =>
      intro l hl
      have : l = [] := List.length_eq_zero.mp (by omega)
      subst this
      simp [chunksOfPos_nil]
  | succ n ih =>
      intro l hl
      have hexp : (k + 1) * (n + 1) = (k + 1) * n + (k + 1) := by ring
      match l with
      | [] =>
          simp only [List.length_nil] at hl
          omega
      | x :: xs =>
          simp only [List.length_cons] at hl
          have hdrop : (xs.drop k).length = (k + 1) * n := by
            simp only [List.length_drop]
            omega
          obtain ⟨ih1, ih2⟩ := ih (xs.drop k) hdrop
          rw [chunksOfPos_cons]
          refine ⟨by simp [ih1], ?_⟩
          intro c hc
          rcases List.mem_cons.mp hc with rfl | hc
          · simp only [List.length_take, List.length_cons]
            omega
          · exact ih2 c hc

/-- Every element of a chunk produced by `chunksOfPos` is an element of
the original list. -/
theorem mem_of_mem_chunksOfPos (k : Nat) (l : List α) :
    ∀ c ∈ chunksOfPos k l, ∀ x ∈ c, x ∈ l := by
  generalize hn : l.length = n
  induction n using Nat.strong_induction_on generalizing l with
  | _ n ih =>
      match l with
      | [] => simp [chunksOfPos_nil]
      | y :: ys =>
          intro c hc x hx
          rw [chunksOfPos_cons] at hc
          rcases List.mem_cons.mp hc with rfl | hc
          · exact List.mem_of_mem_take hx
          · have hlt : (ys.drop k).length < n := by
              simp only [List.length_cons] at hn
              simp [List.length_drop]
              omega
            have hmem := ih ((ys.drop k).length) hlt (ys.drop k) rfl c hc x hx
            exact List.mem_cons_of_mem y (List.mem_of_mem_drop hmem)

/-- Chunking a pairwise-related list produces pairwise-related chunks:
every element of an earlier chunk is related to every element of a later
chunk. -/
theorem chunksOfPos_pairwise {r : α → α → Prop} (k : Nat) (l : List α)
    (hl : l.Pairwise r) :
    (chunksOfPos k l).Pairwise
      (fun c1 c2 => ∀ x ∈ c1, ∀ y ∈ c2, r x y) := by
  generalize hn : l.length = n
  induction n using Nat.strong_induction_on generalizing l with
  | _ n ih =>
      match l with
      | [] => simp [chunksOfPos_nil]
      | z :: zs =>
          rw [chunksOfPos_cons]
          refine List.Pairwise.cons ?_ ?_
          · intro c hc x hx y hy
            have hy' : y ∈ (z :: zs).drop (k + 1) := by
              have := mem_of_mem_chunksOfPos k (zs.drop k) c hc y hy
              simpa using this
            exact hl.rel_of_mem_take_of_mem_drop hx hy'
          · have hlt : (zs.drop k).length < n := by
              simp only [List.length_cons] at hn
              simp [List.length_drop]
              omega
            exact ih ((zs.drop k).length) hlt (zs.drop k)
              (hl.of_cons.drop) rfl

/-- The mean of a non-empty list bounded above by `t` is at most `t`. -/
theorem listMean_le (l : List ℚ) (t : ℚ) (hne : l ≠ [])
    (h : ∀ x ∈ l, x ≤ t) : listMean l ≤ t := by
  have hpos : 0 < (l.length : ℚ) := by
    exact_mod_cast List.length_pos.mpr hne
  unfold listMean
  rw [div_le_iff₀ hpos]
  calc l.sum ≤ l.length • t := List.sum_le_card_nsmul l t h
  _ = t * l.length := by rw [nsmul_eq_mul]; ring

/-- The mean of a non-empty list bounded below by `t` is at least `t`. -/
theorem le_listMean (l : List ℚ) (t : ℚ) (hne : l ≠ [])
    (h : ∀ x ∈ l, t ≤ x) : t ≤ listMean l := by
  have hpos : 0 < (l.length : ℚ) := by
    exact_mod_cast List.length_pos.mpr hne
  unfold listMean
  rw [le_div_iff₀ hpos]
  calc t * l.length = l.length • t := by rw [nsmul_eq_mul]; ring
  _ ≤ l.sum := List.card_nsmul_le_sum l t h

/-- When every pair of an earlier chunk has predicted value at least that
of every pair of a later chunk, the mean predicted value of the later
chunk is at most that of the earlier chunk. -/
theorem mean_predicted_mono (c1 c2 : List (ℚ × ℚ))
    (h : ∀ x ∈ c1, ∀ y ∈ c2, predDesc x y)
    (h1 : c1 ≠ []) (h2 : c2 ≠ []) :
    listMean (c2.map Prod.fst) ≤ listMean (c1.map Prod.fst) := by
  apply le_listMean _ _ (by simpa using h1)
  intro xf hxf
  obtain ⟨x, hx, rfl⟩ := List.mem_map.mp hxf
  apply listMean_le _ _ (by simpa using h2)
  intro yf hyf
  obtain ⟨y, hy, rfl⟩ := List.mem_map.mp hyf
  exact h x hx y hy

/-- C6: given 100 matched (predicted, actual) pairs and number_bins = 10,
the evaluator output has exactly 10 rows, each derived from exactly 10
pairs, ordered by descending mean predicted value; and evaluate_model
defaults number_bins to 10 when it is not supplied. -/
theorem decile_evaluation (pairs : List (ℚ × ℚ)) (h : pairs.length = 100) :
    (evaluate_model_predictions pairs 10).length = 10 ∧
    (∀ row ∈ evaluate_model_predictions pairs 10, row.bin_size = 10) ∧
    (evaluate_model_predictions pairs 10).Pairwise
      (fun r1 r2 => r2.mean_predicted ≤ r1.mean_predicted) ∧
    (∀ (cv : CrystalValue)
        (fetch : Option String → Except PyErr (List (ℚ × ℚ))) eid tes,
      cv.evaluate_model fetch eid tes = cv.evaluate_model fetch eid tes 10) := by
  have hsorted_len : (List.insertionSort predDesc pairs).length = 100 := by
    rw [List.length_insertionSort]
    exact h
  have hlen100 : (List.insertionSort predDesc pairs).length = (9 + 1) * 10 := by
    rw [hsorted_len]
  obtain ⟨hclen, hcsize⟩ := chunksOfPos_length_eq 9 10 _ hlen100
  have hunfold : evaluate_model_predictions pairs 10 =
      (chunksOfPos 9 (List.insertionSort predDesc pairs)).map binRow := by
    unfold evaluate_model_predictions chunksOf
    rw [h]
  refine ⟨?_, ?_, ?_, ?_⟩
  · rw [hunfold, List.length_map, hclen]
  · intro row hrow
    rw [hunfold] at hrow
    obtain ⟨c, hc, rfl⟩ := List.mem_map.mp hrow
    have hlen := hcsize c hc
    simp [binRow, hlen]
  · rw [hunfold, List.pairwise_map]
    have hsorted : (List.insertionSort predDesc pairs).Pairwise predDesc :=
      List.sorted_insertionSort predDesc pairs
    have hchunks := chunksOfPos_pairwise 9 _ hsorted
    refine hchunks.imp_of_mem ?_
    intro c1 c2 hc1 hc2 hrel
    have h1 : c1 ≠ [] := by
      have := hcsize c1 hc1
      intro he
      subst he
      simp at this
    have h2 : c2 ≠ [] := by
      have := hcsize c2 hc2
      intro he
      subst he
      simp at this
    exact mean_predicted_mono c1 c2 hrel h1 h2
  · intro cv fetch eid tes
    rfl

/-- Witness for C6 at a concrete input: the one hundred pairs with
predicted and actual value both equal to the index. -/
theorem decile_evaluation_witness :
    ((List.range 100).map (fun (i : Nat) => ((i : ℚ), (i : ℚ)))).length = 100 ∧
    (evaluate_model_predictions
        ((List.range 100).map (fun (i : Nat) => ((i : ℚ), (i : ℚ)))) 10).length = 10 ∧
    (evaluate_model_predictions
        ((List.range 100).map (fun (i : Nat) => ((i : ℚ), (i : ℚ)))) 10).Pairwise
      (fun r1 r2 => r2.mean_predicted ≤ r1.mean_predicted) :=
  ⟨by simp,
   (decile_evaluation ((List.range 100).map (fun (i : Nat) => ((i : ℚ), (i : ℚ))))
      (by simp)).1,
   (decile_evaluation ((List.range 100).map (fun (i : Nat) => ((i : ℚ), (i : ℚ))))
      (by simp)).2.2.1⟩

end CrystalValueSpec
